import Mathlib

/-!
Verification of the SmartDine API gateway's resilience middleware:
the sliding-window rate limiter (src/api-gateway/src/middleware/rate_limit.py),
the per-service circuit breaker (src/api-gateway/src/middleware/circuit_breaker.py)
and the main-app pipeline around the health endpoint (src/api-gateway/src/main.py).

Times are modelled as integers (Python `time.time()` values restricted to
the integer instants the claims speak about), Python ints as
integers or naturals, and the Redis sorted set backing a rate-limit key as a
duplicate-free list of timestamps: the member stored by `zadd` is `str(now)`
with score `now`, so the member determines the score and the set is just a
set of timestamps, with a repeated `zadd` of the same timestamp a no-op.
-/

/-- Configuration values from src/api-gateway/src/config.py (class Settings). -/
structure GatewaySettings where
  RATE_LIMIT_WINDOW : ℤ
  RATE_LIMIT_MAX_REQUESTS : ℕ
  CIRCUIT_BREAKER_FAILURE_THRESHOLD : ℤ
  CIRCUIT_BREAKER_RECOVERY_TIMEOUT : ℤ
deriving DecidableEq, Repr

/-- The defaults declared in config.py: window 60 s, max 100 requests,
failure threshold 5, recovery timeout 60 s. -/
def defaultSettings : GatewaySettings :=
  ⟨60, 100, 5, 60⟩

/-- Settings used by the spec's rate-limiter scenario: `max_requests = 3`,
`window = 60` (breaker settings left at their defaults). -/
def testSettings3 : GatewaySettings :=
  ⟨60, 3, 5, 60⟩

/-- Settings with `max_requests = 4`, `window = 60`, used to exhibit the
window-boundary behaviour of the rate limiter. -/
def testSettings4 : GatewaySettings :=
  ⟨60, 4, 5, 60⟩

/-! ## Sliding-window rate limiter (middleware/rate_limit.py) -/

/-- `RateLimitMiddleware._check_rate_limit`, acting on the Redis sorted set
stored under the client's key, given the current time `now`.
The pipeline issues, in order:
`zremrangebyscore key 0 (now - RATE_LIMIT_WINDOW)` (removes members whose
score lies in the closed interval `[0, now - window]`),
`zcard key` (the count used for the decision),
`zadd key (str now) now` (inserts the member if absent; updating an existing
member's score to the same value changes nothing), and `expire` (TTL only,
no effect on membership at the times considered here).
Returns the new store and the boolean `request_count < RATE_LIMIT_MAX_REQUESTS`. -/
def _check_rate_limit (s : GatewaySettings) (store : List ℤ) (now : ℤ) :
    List ℤ × Bool :=
  let cleaned := store.filter
    (fun t => decide (¬ (0 ≤ t ∧ t ≤ now - s.RATE_LIMIT_WINDOW)))
  let request_count := cleaned.length
  let store1 := if now ∈ cleaned then cleaned else cleaned ++ [now]
  (store1, decide (request_count < s.RATE_LIMIT_MAX_REQUESTS))

/-- Modelled from the spec (section 4.1 Algorithm): remove all stored
timestamps strictly older than `now - window_seconds`; if the count of
remaining timestamps is at least `max_requests`, reject without recording
`now`; otherwise record `now` and admit. Stated for comparison with
`_check_rate_limit`, the function the code actually runs. -/
def allow_spec (s : GatewaySettings) (store : List ℤ) (now : ℤ) :
    List ℤ × Bool :=
  let cleaned := store.filter (fun t => decide (¬ t < now - s.RATE_LIMIT_WINDOW))
  if s.RATE_LIMIT_MAX_REQUESTS ≤ cleaned.length then (cleaned, false)
  else (cleaned ++ [now], true)

/-- A sequence of rate-limit checks for one key: threads the store through
`_check_rate_limit` at each arrival time and collects the boolean answers. -/
def run_checks (s : GatewaySettings) (store : List ℤ) :
    List ℤ → List ℤ × List Bool
  | [] => (store, [])
  | t :: ts =>
    let r := _check_rate_limit s store t
    let rest := run_checks s r.1 ts
    (rest.1, r.2 :: rest.2)

/-! ## Circuit breaker (middleware/circuit_breaker.py) -/

/-- `CircuitState`: the three states of a breaker. -/
inductive CircuitState where
  | CLOSED
  | OPEN
  | HALF_OPEN
deriving DecidableEq, Repr

/-- A `CircuitBreaker` instance: `state`, `failure_count`
(a Python int, never negative in any reachable state — proved below),
`last_failure_time` (a `time.time()` value, initially 0). -/
structure CircuitBreaker where
  state : CircuitState
  failure_count : ℤ
  last_failure_time : ℤ
deriving DecidableEq, Repr

namespace CircuitBreaker

/-- `CircuitBreaker.__init__`: CLOSED, zero failures, zero last-failure time. -/
def init : CircuitBreaker :=
  ⟨CircuitState.CLOSED, 0, 0⟩

/-- `record_failure`, called at time `now`: increments `failure_count`, sets
`last_failure_time` to `now`, and opens the breaker once the count has
reached `CIRCUIT_BREAKER_FAILURE_THRESHOLD`. -/
def record_failure (s : GatewaySettings) (b : CircuitBreaker) (now : ℤ) :
    CircuitBreaker :=
  let fc := b.failure_count + 1
  { state := if s.CIRCUIT_BREAKER_FAILURE_THRESHOLD ≤ fc
             then CircuitState.OPEN else b.state
    failure_count := fc
    last_failure_time := now }

/-- `record_success`: unconditionally resets `failure_count` to 0 and the
state to CLOSED (`last_failure_time` is not touched). -/
def record_success (b : CircuitBreaker) : CircuitBreaker :=
  { state := CircuitState.CLOSED
    failure_count := 0
    last_failure_time := b.last_failure_time }

/-- `check_state`, called at time `now`: if the breaker is OPEN and strictly
more than `CIRCUIT_BREAKER_RECOVERY_TIMEOUT` seconds have elapsed since
`last_failure_time`, it moves to HALF_OPEN; it then returns the (possibly
updated) breaker together with the state it reports. -/
def check_state (s : GatewaySettings) (b : CircuitBreaker) (now : ℤ) :
    CircuitBreaker × CircuitState :=
  let b1 := if b.state = CircuitState.OPEN ∧
               s.CIRCUIT_BREAKER_RECOVERY_TIMEOUT < now - b.last_failure_time
            then { b with state := CircuitState.HALF_OPEN } else b
  (b1, b1.state)

end CircuitBreaker

/-! ## Service classifier and circuit-breaker middleware dispatch -/

/-- Whether the first character list is an initial segment of the second. -/
def starts_with : List Char → List Char → Bool
  | [], _ => true
  | _ :: _, [] => false
  | a :: as, b :: bs => a == b && starts_with as bs

/-- Whether the first character list occurs contiguously in the second
(Python's `sub in s` on strings). -/
def contains_sub : List Char → List Char → Bool
  | needle, [] => needle.isEmpty
  | needle, c :: rest => starts_with needle (c :: rest) || contains_sub needle rest

/-- Python's substring test `sub in s`. -/
def str_in (sub s : String) : Bool :=
  contains_sub sub.toList s.toList

/-- `CircuitBreakerMiddleware._get_service_from_path`: substring match on the
request path, first match wins, default "unknown". -/
def _get_service_from_path (path : String) : String :=
  if str_in "auth" path then "auth-service"
  else if str_in "restaurants" path then "restaurant-service"
  else if str_in "preferences" path then "preference-service"
  else if str_in "reviews" path then "review-service"
  else "unknown"

/-- An HTTP response as the middleware observes it: a status code and a body
(for an `HTTPException`, the `detail` string). -/
structure Response where
  status : ℕ
  body : String
deriving DecidableEq, Repr

/-- What `call_next` does when the middleware lets the request through:
either the downstream pipeline returns a response, or it raises some
exception (of any kind — the middleware's `except Exception` does not
distinguish transport failures from internal errors). -/
inductive Upstream where
  | succeeds (resp : Response)
  | raises
deriving DecidableEq, Repr

/-- Outcome of one `CircuitBreakerMiddleware.dispatch` call: the breaker for
the resolved service afterwards, the response produced (an `HTTPException`
modelled by its status and detail), and whether `call_next` was invoked. -/
structure DispatchResult where
  breaker : CircuitBreaker
  response : Response
  upstream_called : Bool
deriving DecidableEq, Repr

/-- `CircuitBreakerMiddleware.dispatch` for a request to `path`, acting on
the resolved service's breaker `b`. `now` is the time of the `check_state`
call; `nowF` the (later) time at which `record_failure` runs if `call_next`
raises. If `check_state` reports OPEN the request is rejected with a 503
naming the service and `call_next` is never invoked; otherwise the request
goes downstream, a success while the pre-call state was HALF_OPEN triggers
`record_success`, and any exception triggers `record_failure` and a 503. -/
def dispatch (s : GatewaySettings) (path : String) (b : CircuitBreaker)
    (now nowF : ℤ) (u : Upstream) : DispatchResult :=
  let service := _get_service_from_path path
  let p := CircuitBreaker.check_state s b now
  if p.2 = CircuitState.OPEN then
    ⟨p.1, ⟨503, "Service " ++ service ++ " is temporarily unavailable"⟩, false⟩
  else
    match u with
    | Upstream.succeeds resp =>
      ⟨if p.2 = CircuitState.HALF_OPEN then CircuitBreaker.record_success p.1
        else p.1, resp, true⟩
    | Upstream.raises =>
      ⟨CircuitBreaker.record_failure s p.1 nowF,
        ⟨503, "Service " ++ service ++ " is experiencing issues"⟩, true⟩

/-! ## Main-app pipeline around /health (src/api-gateway/src/main.py)

The app in main.py installs CORS, a counter-based `rate_limit_middleware`
and a cache middleware; it installs no circuit-breaker middleware. The
rate-limit middleware applies to every request, the `/health` route
included. Its per-client Redis counter is modelled as `Option ℕ`
(`none` = key absent). -/

/-- `rate_limit_middleware` from main.py, for one client's counter: on a
missing key it runs `setex(key, window, 1)` and admits; on a counter at or
above `RATE_LIMIT_REQUESTS` it returns 429 without touching the counter;
otherwise it increments and admits. Returns the counter afterwards and
whether the request was admitted. -/
def rate_limit_middleware (limit : ℕ) (counter : Option ℕ) :
    Option ℕ × Bool :=
  match counter with
  | none => (some 1, true)
  | some r => if limit ≤ r then (some r, false) else (some (r + 1), true)

/-- Body returned by the `/health` route handler in main.py: a JSON object
with a "status" field set to "healthy" and a "timestamp" field set to
`time.time()`. -/
structure HealthBody where
  status : String
  timestamp : ℤ
deriving DecidableEq, Repr

/-- `health_check` from main.py, called at time `now`. -/
def health_check (now : ℤ) : HealthBody :=
  ⟨"healthy", now⟩

/-- A `GET /health` request travelling through the main.py app: the
rate-limit middleware runs first; if it rejects, the client receives 429
and the route never runs; otherwise the `/health` handler produces its
body with status 200. Returns the client's counter afterwards, the status
code, and the body when the handler ran. -/
def gateway_health_request (limit : ℕ) (counter : Option ℕ) (now : ℤ) :
    Option ℕ × ℕ × Option HealthBody :=
  let p := rate_limit_middleware limit counter
  if p.2 then (p.1, 200, some (health_check now)) else (p.1, 429, none)

/-! ## Sequences of breaker operations -/

/-- One call on a `CircuitBreaker`: `record_failure` at time `t`,
`record_success`, or `check_state` at time `t` (whose returned state is
discarded here; only the mutation matters). -/
inductive BreakerOp where
  | fail (t : ℤ)
  | success
  | check (t : ℤ)
deriving DecidableEq, Repr

/-- Apply one breaker call to a breaker. -/
def apply_op (s : GatewaySettings) (b : CircuitBreaker) : BreakerOp → CircuitBreaker
  | BreakerOp.fail t => CircuitBreaker.record_failure s b t
  | BreakerOp.success => CircuitBreaker.record_success b
  | BreakerOp.check t => (CircuitBreaker.check_state s b t).1

/-- Apply a finite sequence of breaker calls, left to right. -/
def run_ops (s : GatewaySettings) (b : CircuitBreaker) : List BreakerOp → CircuitBreaker
  | [] => b
  | op :: ops => run_ops s (apply_op s b op) ops

/-- The breaker invariant: the failure count is never negative, and an OPEN
or HALF_OPEN breaker has accumulated at least
`CIRCUIT_BREAKER_FAILURE_THRESHOLD` failures since its last reset. -/
def BreakerInv (s : GatewaySettings) (b : CircuitBreaker) : Prop :=
  0 ≤ b.failure_count ∧
  ((b.state = CircuitState.OPEN ∨ b.state = CircuitState.HALF_OPEN) →
    s.CIRCUIT_BREAKER_FAILURE_THRESHOLD ≤ b.failure_count)

/-! ## Claim C1: rate-limit check algorithm -/

/-- C1 counterexample. The claim says timestamps strictly older than
`now - window` are removed and that a rejected request does not record
`now`. At store `[10, 20, 30, 40]`, `now = 61`, `max_requests = 4`,
`window = 60`: no stored timestamp is strictly older than 1, so the claim
predicts rejection with `61` absent afterwards (as `allow_spec` computes);
the code rejects but records `61` anyway. At store `[1, 30, 40, 50]` the
claim predicts rejection (no timestamp strictly older than 1), but the
code also removes the timestamp equal to `1 = now - window` and admits. -/
theorem C1_counterexample :
    allow_spec testSettings4 [10, 20, 30, 40] 61 = ([10, 20, 30, 40], false) ∧
    _check_rate_limit testSettings4 [10, 20, 30, 40] 61
      = ([10, 20, 30, 40, 61], false) ∧
    allow_spec testSettings4 [1, 30, 40, 50] 61 = ([1, 30, 40, 50], false) ∧
    _check_rate_limit testSettings4 [1, 30, 40, 50] 61
      = ([30, 40, 50, 61], true) := by decide

/-- C1 (amended): the rate-limit check removes the stored timestamps `t`
with `0 ≤ t ≤ now - window` (boundary inclusive), returns true exactly when
the count of remaining timestamps is below `RATE_LIMIT_MAX_REQUESTS`, and
in every case — rejected requests included — `now` ends up recorded in the
key's store (a timestamp equal to an existing member is deduplicated). -/
theorem C1_check_rate_limit_records_now (s : GatewaySettings)
    (store : List ℤ) (now : ℤ) :
    ((_check_rate_limit s store now).2 = true ↔
      (store.filter
        (fun t => decide (¬ (0 ≤ t ∧ t ≤ now - s.RATE_LIMIT_WINDOW)))).length
        < s.RATE_LIMIT_MAX_REQUESTS) ∧
    now ∈ (_check_rate_limit s store now).1 := by
  unfold _check_rate_limit
  refine ⟨by simp, ?_⟩
  dsimp only
  split
  · next hmem => exact hmem
  · next hmem => exact List.mem_append_right _ (by simp)

/-- C1 witness: at a concrete rejected request, `now` is recorded. -/
theorem C1_check_rate_limit_records_now_witness :
    (61 : ℤ) ∈ (_check_rate_limit testSettings4 [10, 20, 30, 40] 61).1 :=
  (C1_check_rate_limit_records_now testSettings4 [10, 20, 30, 40] 61).2

/-! ## Claim C6: rate-limiter window scenario -/

/-- C6 counterexample. The claim predicts the fourth call at `t = 0`
returns false; because the Redis member for time 0 is the string "0" for
all four calls, the store never holds more than one entry and every call
returns true. -/
theorem C6_counterexample :
    (run_checks testSettings3 [] [0, 0, 0, 0]).2
      = [true, true, true, true] := by decide

/-- C6 (amended): with `max_requests = 3`, `window = 60` and the four
requests arriving at distinct instants 0, 1, 2, 3 of the window, the first
three calls return true, the fourth returns false, and a later call at
`t = 61` (window elapsed for the early entries) returns true. -/
theorem C6_window_scenario :
    (run_checks testSettings3 [] [0, 1, 2, 3, 61]).2
      = [true, true, true, false, true] := by decide

/-! ## Claim C2: breaker trip after five failures -/

/-- C2: from a fresh breaker with the configured threshold 5, the first
four `record_failure` calls leave the state CLOSED, the fifth opens the
breaker, and a `check_state` before the recovery timeout has elapsed
(`now - t5 ≤ 60`) reports OPEN. -/
theorem C2_trip (t1 t2 t3 t4 t5 now : ℤ)
    (h : now - t5 ≤ defaultSettings.CIRCUIT_BREAKER_RECOVERY_TIMEOUT) :
    (run_ops defaultSettings CircuitBreaker.init
      [BreakerOp.fail t1, BreakerOp.fail t2, BreakerOp.fail t3,
       BreakerOp.fail t4]).state = CircuitState.CLOSED ∧
    (run_ops defaultSettings CircuitBreaker.init
      [BreakerOp.fail t1, BreakerOp.fail t2, BreakerOp.fail t3,
       BreakerOp.fail t4, BreakerOp.fail t5]).state = CircuitState.OPEN ∧
    (CircuitBreaker.check_state defaultSettings
      (run_ops defaultSettings CircuitBreaker.init
        [BreakerOp.fail t1, BreakerOp.fail t2, BreakerOp.fail t3,
         BreakerOp.fail t4, BreakerOp.fail t5]) now).2
      = CircuitState.OPEN := by
  have h4 : run_ops defaultSettings CircuitBreaker.init
      [BreakerOp.fail t1, BreakerOp.fail t2, BreakerOp.fail t3,
       BreakerOp.fail t4] = ⟨CircuitState.CLOSED, 4, t4⟩ := by
    norm_num [run_ops, apply_op, CircuitBreaker.record_failure,
      CircuitBreaker.init, defaultSettings]
  have h5 : run_ops defaultSettings CircuitBreaker.init
      [BreakerOp.fail t1, BreakerOp.fail t2, BreakerOp.fail t3,
       BreakerOp.fail t4, BreakerOp.fail t5] = ⟨CircuitState.OPEN, 5, t5⟩ := by
    norm_num [run_ops, apply_op, CircuitBreaker.record_failure,
      CircuitBreaker.init, defaultSettings]
  refine ⟨by rw [h4], by rw [h5], ?_⟩
  rw [h5]
  have hno : ¬ (defaultSettings.CIRCUIT_BREAKER_RECOVERY_TIMEOUT
      < now - (⟨CircuitState.OPEN, 5, t5⟩ : CircuitBreaker).last_failure_time) := by
    simp only [defaultSettings] at h ⊢
    omega
  unfold CircuitBreaker.check_state
  simp [hno]

/-- C2 witness: all five failures and the check at time 0. -/
theorem C2_trip_witness :
    (CircuitBreaker.check_state defaultSettings
      (run_ops defaultSettings CircuitBreaker.init
        [BreakerOp.fail 0, BreakerOp.fail 0, BreakerOp.fail 0,
         BreakerOp.fail 0, BreakerOp.fail 0]) 0).2 = CircuitState.OPEN :=
  (C2_trip 0 0 0 0 0 0 (by decide)).2.2

/-! ## Claim C3: breaker recovery -/

/-- C3: for an OPEN breaker with last failure at `b.last_failure_time`,
a `check_state` at `now` with `now - last ≤ recovery_timeout` returns OPEN
and leaves the breaker unchanged; with `now - last > recovery_timeout` it
moves the breaker to HALF_OPEN and returns HALF_OPEN, and a subsequent
`record_success` yields state CLOSED with `failure_count = 0`. -/
theorem C3_recovery (b : CircuitBreaker) (now : ℤ)
    (hb : b.state = CircuitState.OPEN) :
    (now - b.last_failure_time ≤ defaultSettings.CIRCUIT_BREAKER_RECOVERY_TIMEOUT →
      CircuitBreaker.check_state defaultSettings b now = (b, CircuitState.OPEN)) ∧
    (defaultSettings.CIRCUIT_BREAKER_RECOVERY_TIMEOUT < now - b.last_failure_time →
      CircuitBreaker.check_state defaultSettings b now
        = ({ b with state := CircuitState.HALF_OPEN }, CircuitState.HALF_OPEN) ∧
      CircuitBreaker.record_success { b with state := CircuitState.HALF_OPEN }
        = ⟨CircuitState.CLOSED, 0, b.last_failure_time⟩) := by
  constructor
  · intro hle
    have hno : ¬ (defaultSettings.CIRCUIT_BREAKER_RECOVERY_TIMEOUT
        < now - b.last_failure_time) := by omega
    unfold CircuitBreaker.check_state
    simp [hno, hb]
  · intro hlt
    unfold CircuitBreaker.check_state CircuitBreaker.record_success
    simp [hb, hlt]

/-- C3 witness: an OPEN breaker that tripped at time 0, checked at the
boundary time 60 (stays OPEN) and at 61 (turns HALF_OPEN), then reset. -/
theorem C3_recovery_witness :
    CircuitBreaker.check_state defaultSettings ⟨CircuitState.OPEN, 5, 0⟩ 60
      = (⟨CircuitState.OPEN, 5, 0⟩, CircuitState.OPEN) ∧
    CircuitBreaker.check_state defaultSettings ⟨CircuitState.OPEN, 5, 0⟩ 61
      = (⟨CircuitState.HALF_OPEN, 5, 0⟩, CircuitState.HALF_OPEN) ∧
    CircuitBreaker.record_success ⟨CircuitState.HALF_OPEN, 5, 0⟩
      = ⟨CircuitState.CLOSED, 0, 0⟩ :=
  ⟨(C3_recovery ⟨CircuitState.OPEN, 5, 0⟩ 60 rfl).1 (by decide),
   ((C3_recovery ⟨CircuitState.OPEN, 5, 0⟩ 61 rfl).2 (by decide)).1,
   ((C3_recovery ⟨CircuitState.OPEN, 5, 0⟩ 61 rfl).2 (by decide)).2⟩

/-! ## Claim C4: success while CLOSED is a pipeline no-op -/

/-- C4: when the pre-call breaker state is CLOSED, a successful upstream
response leaves the breaker entirely unchanged — `record_success` is never
invoked, so `failure_count` is not reset — while a successful response
behind a HALF_OPEN pre-call state does reset `failure_count` to 0. -/
theorem C4_closed_success_noop (s : GatewaySettings) (path : String)
    (now nowF : ℤ) (resp : Response) (b : CircuitBreaker)
    (h : b.state = CircuitState.CLOSED) :
    (dispatch s path b now nowF (Upstream.succeeds resp)).breaker = b ∧
    ∀ b2 : CircuitBreaker, b2.state = CircuitState.HALF_OPEN →
      (dispatch s path b2 now nowF (Upstream.succeeds resp)).breaker.failure_count
        = 0 := by
  constructor
  · unfold dispatch CircuitBreaker.check_state
    simp [h]
  · intro b2 h2
    unfold dispatch CircuitBreaker.check_state CircuitBreaker.record_success
    simp [h2]

/-- C4 witness: a CLOSED breaker with three accumulated failures keeps them
through a successful request; a HALF_OPEN breaker is reset by one. -/
theorem C4_closed_success_noop_witness :
    (dispatch defaultSettings "/api/auth/login" ⟨CircuitState.CLOSED, 3, 0⟩ 0 0
      (Upstream.succeeds ⟨200, "ok"⟩)).breaker
      = ⟨CircuitState.CLOSED, 3, 0⟩ ∧
    (dispatch defaultSettings "/api/auth/login" ⟨CircuitState.HALF_OPEN, 5, 9⟩ 0 0
      (Upstream.succeeds ⟨200, "ok"⟩)).breaker.failure_count = 0 :=
  ⟨(C4_closed_success_noop defaultSettings "/api/auth/login" 0 0 ⟨200, "ok"⟩
      ⟨CircuitState.CLOSED, 3, 0⟩ rfl).1,
   (C4_closed_success_noop defaultSettings "/api/auth/login" 0 0 ⟨200, "ok"⟩
      ⟨CircuitState.CLOSED, 3, 0⟩ rfl).2 ⟨CircuitState.HALF_OPEN, 5, 9⟩ rfl⟩

/-! ## Claim C5: rejection while OPEN -/

/-- C5: whenever `check_state` reports OPEN, `dispatch` returns the 503
response whose body names the resolved service, does not invoke
`call_next`, and leaves the breaker exactly as it was (in particular no
failure is recorded by the rejection). -/
theorem C5_open_rejection (s : GatewaySettings) (path : String)
    (b : CircuitBreaker) (now nowF : ℤ) (u : Upstream)
    (h : (CircuitBreaker.check_state s b now).2 = CircuitState.OPEN) :
    dispatch s path b now nowF u
      = ⟨b, ⟨503, "Service " ++ _get_service_from_path path
          ++ " is temporarily unavailable"⟩, false⟩ := by
  have hcheck : CircuitBreaker.check_state s b now = (b, CircuitState.OPEN) := by
    unfold CircuitBreaker.check_state at h ⊢
    by_cases hc : b.state = CircuitState.OPEN ∧
        s.CIRCUIT_BREAKER_RECOVERY_TIMEOUT < now - b.last_failure_time
    · simp [hc] at h
    · simp [hc] at h ⊢
      exact h
  unfold dispatch
  rw [hcheck]
  simp

/-- C5 witness: an OPEN breaker checked before its timeout rejects the
request with the service named in the body and no upstream call, even
though the downstream would have raised. -/
theorem C5_open_rejection_witness :
    dispatch defaultSettings "/api/auth/login" ⟨CircuitState.OPEN, 5, 0⟩ 30 30
      Upstream.raises
      = ⟨⟨CircuitState.OPEN, 5, 0⟩,
          ⟨503, "Service auth-service is temporarily unavailable"⟩, false⟩ :=
  C5_open_rejection defaultSettings "/api/auth/login" ⟨CircuitState.OPEN, 5, 0⟩
    30 30 Upstream.raises (by decide)

/-! ## Claim C7: exceptions during the downstream call -/

/-- C7 counterexample. The claim predicts that an internal error raised
while handling the request yields status 500 with no failure recorded
against the breaker; on a fresh breaker the middleware instead returns 503
and increments `failure_count` to 1 — its `except Exception` block treats
every exception from `call_next` alike. -/
theorem C7_counterexample :
    (dispatch defaultSettings "/restaurants/1" CircuitBreaker.init 0 0
      Upstream.raises).response.status = 503 ∧
    (dispatch defaultSettings "/restaurants/1" CircuitBreaker.init 0 0
      Upstream.raises).response.status ≠ 500 ∧
    (dispatch defaultSettings "/restaurants/1" CircuitBreaker.init 0 0
      Upstream.raises).breaker.failure_count = 1 := by decide

/-- C7 (amended): any exception propagating out of `call_next` — the code
does not distinguish internal errors from upstream transport failures —
is caught by the circuit-breaker stage, which records a failure against
the resolved service's breaker and fails the request with 503. -/
theorem C7_exception_maps_to_503 (s : GatewaySettings) (path : String)
    (b : CircuitBreaker) (now nowF : ℤ)
    (h : (CircuitBreaker.check_state s b now).2 ≠ CircuitState.OPEN) :
    dispatch s path b now nowF Upstream.raises
      = ⟨CircuitBreaker.record_failure s
            (CircuitBreaker.check_state s b now).1 nowF,
          ⟨503, "Service " ++ _get_service_from_path path
            ++ " is experiencing issues"⟩, true⟩ := by
  unfold dispatch
  simp [h]

/-- C7 witness: a fresh breaker, an exception at time 7. -/
theorem C7_exception_maps_to_503_witness :
    dispatch defaultSettings "/api/preferences" CircuitBreaker.init 0 7
      Upstream.raises
      = ⟨⟨CircuitState.CLOSED, 1, 7⟩,
          ⟨503, "Service preference-service is experiencing issues"⟩, true⟩ :=
  C7_exception_maps_to_503 defaultSettings "/api/preferences"
    CircuitBreaker.init 0 7 (by decide)

/-! ## Claim C8: /health and the main-app rate limiter -/

/-- C8 counterexample. The claim predicts that `GET /health` is never
rejected with 429, mutates no limiter state, and returns the body with
only a "status" field. In main.py the rate-limit middleware applies to
every path: with the client's counter at the limit the health request is
rejected 429; with no counter it creates one; and when admitted the body
also carries a "timestamp" field. -/
theorem C8_counterexample :
    gateway_health_request 100 (some 100) 7 = (some 100, 429, none) ∧
    (gateway_health_request 100 none 7).1 = some 1 ∧
    gateway_health_request 100 (some 3) 7
      = (some 4, 200, some ⟨"healthy", 7⟩) := by decide

/-- C8 (amended): `GET /health` passes through the same counter-based
rate-limit middleware as every other route. A request with no stored
counter creates the counter at 1 and gets status 200 with body
status "healthy" plus the current timestamp; a request with the counter at
or above the limit is rejected 429 (counter unchanged); otherwise the
counter is incremented and the handler runs. -/
theorem C8_health_not_exempt (limit r : ℕ) (now : ℤ) :
    gateway_health_request limit none now
      = (some 1, 200, some ⟨"healthy", now⟩) ∧
    (limit ≤ r →
      gateway_health_request limit (some r) now = (some r, 429, none)) ∧
    (r < limit →
      gateway_health_request limit (some r) now
        = (some (r + 1), 200, some ⟨"healthy", now⟩)) := by
  refine ⟨rfl, ?_, ?_⟩
  · intro h
    unfold gateway_health_request rate_limit_middleware
    simp [h]
  · intro h
    have hnot : ¬ (limit ≤ r) := by omega
    unfold gateway_health_request rate_limit_middleware health_check
    simp [hnot]

/-- C8 witness: a client whose counter has reached the default limit 100
has its health request rejected. -/
theorem C8_health_not_exempt_witness :
    gateway_health_request 100 (some 100) 0 = (some 100, 429, none) :=
  (C8_health_not_exempt 100 100 0).2.1 (le_refl 100)

/-! ## Claim C9: reachable-state invariant of the breaker -/

/-- One breaker call preserves the breaker invariant. -/
theorem BreakerInv_apply_op (s : GatewaySettings) (b : CircuitBreaker)
    (op : BreakerOp) (h : BreakerInv s b) :
    BreakerInv s (apply_op s b op) := by
  obtain ⟨h0, hth⟩ := h
  cases op with
  | fail t =>
    by_cases hc : s.CIRCUIT_BREAKER_FAILURE_THRESHOLD ≤ b.failure_count + 1
    · refine ⟨?_, fun _ => ?_⟩
      · simp [apply_op, CircuitBreaker.record_failure]
        omega
      · simpa [apply_op, CircuitBreaker.record_failure] using hc
    · refine ⟨?_, fun hs => ?_⟩
      · simp [apply_op, CircuitBreaker.record_failure]
        omega
      · simp [apply_op, CircuitBreaker.record_failure, hc] at hs ⊢
        have := hth hs
        omega
  | success =>
    exact ⟨by simp [apply_op, CircuitBreaker.record_success],
      by simp [apply_op, CircuitBreaker.record_success]⟩
  | check t =>
    by_cases hc : b.state = CircuitState.OPEN ∧
        s.CIRCUIT_BREAKER_RECOVERY_TIMEOUT < t - b.last_failure_time
    · refine ⟨?_, fun _ => ?_⟩
      · simpa [apply_op, CircuitBreaker.check_state, hc] using h0
      · simpa [apply_op, CircuitBreaker.check_state, hc] using hth (Or.inl hc.1)
    · refine ⟨?_, fun hs => ?_⟩
      · simpa [apply_op, CircuitBreaker.check_state, hc] using h0
      · simp [apply_op, CircuitBreaker.check_state, hc] at hs ⊢
        exact hth hs

/-- Any sequence of breaker calls preserves the breaker invariant. -/
theorem BreakerInv_run_ops (s : GatewaySettings) (ops : List BreakerOp) :
    ∀ b : CircuitBreaker, BreakerInv s b → BreakerInv s (run_ops s b ops) := by
  induction ops with
  | nil => exact fun b h => h
  | cons op ops ih => exact fun b h => ih _ (BreakerInv_apply_op s b op h)

/-- C9: every breaker reachable from the fresh breaker by a finite sequence
of `record_failure`, `record_success` and `check_state` calls satisfies the
invariant: `failure_count` is never negative, and an OPEN or HALF_OPEN
breaker has `failure_count ≥ CIRCUIT_BREAKER_FAILURE_THRESHOLD`. -/
theorem C9_reachable_invariant (s : GatewaySettings) (ops : List BreakerOp) :
    BreakerInv s (run_ops s CircuitBreaker.init ops) :=
  BreakerInv_run_ops s ops CircuitBreaker.init
    ⟨le_refl 0, by intro hs; simp [CircuitBreaker.init] at hs⟩

/-! ## Claim C10: frame conditions of check_state -/

/-- C10: `check_state` never changes `failure_count` or
`last_failure_time`; for a breaker not in OPEN it changes nothing at all
and reports the current state; for an OPEN breaker it either leaves the
breaker unchanged (reporting OPEN) or changes only the state field to
HALF_OPEN (reporting HALF_OPEN). -/
theorem C10_check_state_frame (s : GatewaySettings) (b : CircuitBreaker)
    (now : ℤ) :
    (CircuitBreaker.check_state s b now).1.failure_count = b.failure_count ∧
    (CircuitBreaker.check_state s b now).1.last_failure_time
      = b.last_failure_time ∧
    (b.state ≠ CircuitState.OPEN →
      CircuitBreaker.check_state s b now = (b, b.state)) ∧
    (b.state = CircuitState.OPEN →
      CircuitBreaker.check_state s b now = (b, CircuitState.OPEN) ∨
      CircuitBreaker.check_state s b now
        = ({ b with state := CircuitState.HALF_OPEN }, CircuitState.HALF_OPEN)) := by
  unfold CircuitBreaker.check_state
  by_cases hc : b.state = CircuitState.OPEN ∧
      s.CIRCUIT_BREAKER_RECOVERY_TIMEOUT < now - b.last_failure_time
  · refine ⟨by simp [hc], by simp [hc], fun hne => absurd hc.1 hne,
      fun _ => Or.inr ?_⟩
    simp [hc]
  · refine ⟨by simp [hc], by simp [hc], fun hne => by simp [hc],
      fun hop => Or.inl ?_⟩
    have hno : ¬ (s.CIRCUIT_BREAKER_RECOVERY_TIMEOUT
        < now - b.last_failure_time) := fun hb => hc ⟨hop, hb⟩
    simp [hno, hop]

/-- C10 witness: a CLOSED breaker is untouched by `check_state`. -/
theorem C10_check_state_frame_witness :
    CircuitBreaker.check_state defaultSettings ⟨CircuitState.CLOSED, 2, 0⟩ 5
      = (⟨CircuitState.CLOSED, 2, 0⟩, CircuitState.CLOSED) :=
  (C10_check_state_frame defaultSettings ⟨CircuitState.CLOSED, 2, 0⟩ 5).2.2.1
    (by decide)
